import Mathlib

/-!
Verification of the arithmetic pipeline of `special_angles.py` and
`special_angles_numpy.py` (repository `math-proofs-in-python`).

Both scripts compute, from a cube side length `r`:
  diag_length   = sqrt(r**2 + (sqrt(2)*r)**2)
  sphere_radius = diag_length / 2
  sphere_volume = (4/3) * pi * sphere_radius**3
  x             = r * sin(pi/3)
  sin_pi_3      = sphere_volume / (pi * x**3)

Python float64 arithmetic is embedded as exact real arithmetic; the
division producing `sin_pi_3` raises `ZeroDivisionError` in Python when
its denominator is zero, which is embedded as an `Option`-valued
evaluator (`evaluate`) returning `none` exactly on a zero denominator.
-/

namespace SpecialAngles

/-- Line 27 of `special_angles.py`: `diag_length = math.sqrt(r**2 + (math.sqrt(2)*r)**2)`. -/
noncomputable def diag_length (r : ℝ) : ℝ :=
  Real.sqrt (r ^ 2 + (Real.sqrt 2 * r) ^ 2)

/-- Line 31 of `special_angles.py`: `sphere_radius = diag_length / 2`. -/
noncomputable def sphere_radius (r : ℝ) : ℝ :=
  diag_length r / 2

/-- Line 35 of `special_angles.py`: `sphere_volume = (4/3) * math.pi * sphere_radius**3`. -/
noncomputable def sphere_volume (r : ℝ) : ℝ :=
  (4 / 3) * Real.pi * sphere_radius r ^ 3

/-- Line 39 of `special_angles.py`: `x = r * math.sin(math.pi / 3)`. -/
noncomputable def xval (r : ℝ) : ℝ :=
  r * Real.sin (Real.pi / 3)

/-- Line 40 of `special_angles.py`: `sin_pi_3 = sphere_volume / (math.pi * x**3)`.
Total real-division version (only meaningful when the denominator is nonzero;
`evaluate` below models the Python failure on a zero denominator). -/
noncomputable def sin_pi_3 (r : ℝ) : ℝ :=
  sphere_volume r / (Real.pi * xval r ^ 3)

/-- The four numbers printed per run of the pipeline (lines 28, 32, 36, 41). -/
structure EvaluationResult where
  diag_length : ℝ
  sphere_radius : ℝ
  sphere_volume : ℝ
  sin_pi_3 : ℝ

/-- The pipeline of lines 27-40 of `special_angles.py`, with the Python
`ZeroDivisionError` of the final division embedded as `none`: Python raises
exactly when the float denominator `math.pi * x**3` is zero. -/
noncomputable def evaluate (r : ℝ) : Option EvaluationResult :=
  open Classical in
  if Real.pi * xval r ^ 3 = 0 then none
  else some ⟨diag_length r, sphere_radius r, sphere_volume r, sin_pi_3 r⟩

end SpecialAngles

namespace SpecialAnglesNumpy

/-- Line 27 of `special_angles_numpy.py` (identical text to `special_angles.py`). -/
noncomputable def diag_length (r : ℝ) : ℝ :=
  Real.sqrt (r ^ 2 + (Real.sqrt 2 * r) ^ 2)

/-- Line 31 of `special_angles_numpy.py`. -/
noncomputable def sphere_radius (r : ℝ) : ℝ :=
  diag_length r / 2

/-- Line 35 of `special_angles_numpy.py`. -/
noncomputable def sphere_volume (r : ℝ) : ℝ :=
  (4 / 3) * Real.pi * sphere_radius r ^ 3

/-- Line 39 of `special_angles_numpy.py`. -/
noncomputable def xval (r : ℝ) : ℝ :=
  r * Real.sin (Real.pi / 3)

/-- Line 40 of `special_angles_numpy.py`. -/
noncomputable def sin_pi_3 (r : ℝ) : ℝ :=
  sphere_volume r / (Real.pi * xval r ^ 3)

/-- The pipeline of lines 27-40 of `special_angles_numpy.py`. -/
noncomputable def evaluate (r : ℝ) : Option SpecialAngles.EvaluationResult :=
  open Classical in
  if Real.pi * xval r ^ 3 = 0 then none
  else some ⟨diag_length r, sphere_radius r, sphere_volume r, sin_pi_3 r⟩

end SpecialAnglesNumpy

namespace SpecialAngles

/-- The module-level variables that the script body assigns (lines 24-40 and the
copies at lines 85-90 and 98-103 of `special_angles.py`). -/
structure ScriptState where
  r : ℝ
  diag_length : ℝ
  sphere_radius : ℝ
  sphere_volume : ℝ
  x : ℝ
  sin_pi_3 : ℝ

/-- One run of the example block (lines 85-90 of `special_angles.py`): the
script assigns `r` and then overwrites every derived variable from it, each
assignment reading only variables written earlier in the same block. The final
division is the total real one (the blocks are only run at `r = 1, 2, 3`). -/
noncomputable def runPipeline (s : ScriptState) (rv : ℝ) : ScriptState :=
  let s1 : ScriptState := { s with r := rv }
  let s2 : ScriptState :=
    { s1 with diag_length := Real.sqrt (s1.r ^ 2 + (Real.sqrt 2 * s1.r) ^ 2) }
  let s3 : ScriptState := { s2 with sphere_radius := s2.diag_length / 2 }
  let s4 : ScriptState :=
    { s3 with sphere_volume := (4 / 3) * Real.pi * s3.sphere_radius ^ 3 }
  let s5 : ScriptState := { s4 with x := s4.r * Real.sin (Real.pi / 3) }
  { s5 with sin_pi_3 := s5.sphere_volume / (Real.pi * s5.x ^ 3) }

/- ### Helper lemmas -/

lemma sqrt_two_sq : Real.sqrt 2 ^ 2 = 2 :=
  Real.sq_sqrt (by norm_num)

lemma diag_length_eq {r : ℝ} (hr : 0 ≤ r) : diag_length r = r * Real.sqrt 3 := by
  unfold diag_length
  have h2 : (Real.sqrt 2 * r) ^ 2 = 2 * r ^ 2 := by
    rw [mul_pow, sqrt_two_sq]
  rw [h2]
  have h3 : r ^ 2 + 2 * r ^ 2 = r ^ 2 * 3 := by ring
  rw [h3, Real.sqrt_mul (sq_nonneg r), Real.sqrt_sq hr]

lemma sphere_radius_eq {r : ℝ} (hr : 0 ≤ r) :
    sphere_radius r = r * Real.sqrt 3 / 2 := by
  unfold sphere_radius
  rw [diag_length_eq hr]

lemma sqrt3_cube : Real.sqrt 3 ^ 3 = 3 * Real.sqrt 3 := by
  have h : Real.sqrt 3 ^ 2 = 3 := Real.sq_sqrt (by norm_num)
  calc Real.sqrt 3 ^ 3 = Real.sqrt 3 ^ 2 * Real.sqrt 3 := by ring
    _ = 3 * Real.sqrt 3 := by rw [h]

lemma cube_of_half_diag (r : ℝ) :
    (r * Real.sqrt 3 / 2) ^ 3 = r ^ 3 * (3 * Real.sqrt 3) / 8 := by
  rw [div_pow, mul_pow, sqrt3_cube]
  ring

lemma sphere_volume_eq {r : ℝ} (hr : 0 ≤ r) :
    sphere_volume r = Real.sqrt 3 / 2 * Real.pi * r ^ 3 := by
  unfold sphere_volume
  rw [sphere_radius_eq hr, cube_of_half_diag]
  ring

lemma xval_eq (r : ℝ) : xval r = r * Real.sqrt 3 / 2 := by
  unfold xval
  rw [Real.sin_pi_div_three]
  ring

lemma sqrt3_pos : 0 < Real.sqrt 3 := Real.sqrt_pos.mpr (by norm_num)

lemma denom_ne_zero {r : ℝ} (hr : r ≠ 0) : Real.pi * xval r ^ 3 ≠ 0 := by
  rw [xval_eq, cube_of_half_diag]
  have hs : Real.sqrt 3 ≠ 0 := ne_of_gt sqrt3_pos
  have hr3 : r ^ 3 ≠ 0 := pow_ne_zero 3 hr
  have h8 : (8:ℝ) ≠ 0 := by norm_num
  positivity

lemma sin_pi_3_eq {r : ℝ} (hr : 0 < r) : sin_pi_3 r = 4 / 3 := by
  unfold sin_pi_3
  have hden : Real.pi * xval r ^ 3 ≠ 0 := denom_ne_zero (ne_of_gt hr)
  rw [div_eq_iff hden, sphere_volume_eq hr.le, xval_eq, cube_of_half_diag]
  ring

lemma evaluate_eq_none_iff (r : ℝ) : evaluate r = none ↔ r = 0 := by
  constructor
  · intro h
    by_contra hr
    rw [evaluate, if_neg (denom_ne_zero hr)] at h
    exact Option.some_ne_none _ h
  · intro h
    subst h
    have hx : xval 0 = 0 := by simp [xval]
    rw [evaluate, if_pos (by rw [hx]; ring)]

/- ### Numeric bounds -/

lemma sqrt3_gt : (1.732050807 : ℝ) < Real.sqrt 3 :=
  (Real.lt_sqrt (by norm_num)).mpr (by norm_num)

lemma sqrt3_lt : Real.sqrt 3 < 1.732050808 :=
  (Real.sqrt_lt' (by norm_num)).mpr (by norm_num)

lemma pi_sqrt3_gt : (5.4413980909 : ℝ) < Real.pi * Real.sqrt 3 := by
  have h := mul_lt_mul'' Real.pi_gt_d20 sqrt3_gt (by norm_num) (by norm_num)
  nlinarith [h]

lemma pi_sqrt3_lt : Real.pi * Real.sqrt 3 < 5.4413980941 := by
  have h := mul_lt_mul'' Real.pi_lt_d20 sqrt3_lt Real.pi_pos.le sqrt3_pos.le
  nlinarith [h]

lemma sphere_volume_one : sphere_volume 1 = Real.pi * Real.sqrt 3 / 2 := by
  rw [sphere_volume_eq (by norm_num : (0:ℝ) ≤ 1)]
  ring

lemma sphere_volume_two : sphere_volume 2 = 4 * (Real.pi * Real.sqrt 3) := by
  rw [sphere_volume_eq (by norm_num : (0:ℝ) ≤ 2)]
  ring

lemma sphere_volume_three : sphere_volume 3 = 13.5 * (Real.pi * Real.sqrt 3) := by
  rw [sphere_volume_eq (by norm_num : (0:ℝ) ≤ 3)]
  ring

/- ### Claim theorems -/

/-- C1, counterexample: at `r = 1` the computed `sin_pi_3` value does not agree
with `sin(π/3)` (nor with the literal `0.8660`) to 4 decimal places: the code
computes exactly `4/3 ≈ 1.3333`. -/
theorem claim_C1_cex :
    ¬ |sin_pi_3 1 - Real.sin (Real.pi / 3)| < 1 / 20000 ∧
    ¬ |sin_pi_3 1 - 0.8660| < 1 / 20000 := by
  rw [sin_pi_3_eq (by norm_num : (0:ℝ) < 1), Real.sin_pi_div_three]
  constructor
  · intro h
    have h2 := (abs_lt.mp h).2
    have := sqrt3_lt
    linarith
  · intro h
    have h2 := (abs_lt.mp h).2
    norm_num at h2

/-- C1, amended: for every `r > 0` the computed `sin_pi_3` value agrees with
`4/3 ≈ 1.3333` (not `sin(π/3) ≈ 0.8660`) to 4 decimal places. -/
theorem claim_C1 (r : ℝ) (hr : 0 < r) : |sin_pi_3 r - 1.3333| < 1 / 20000 := by
  rw [sin_pi_3_eq hr, abs_lt]
  constructor <;> norm_num

/-- C1, witness: the amended claim evaluated at `r = 1`. -/
theorem claim_C1_witness :
    (0:ℝ) < 1 ∧ |sin_pi_3 1 - 1.3333| < 1 / 20000 :=
  ⟨by norm_num, claim_C1 1 (by norm_num)⟩

/-- C2, counterexample: at `r = 2` the identity value is `4/3`, not `0.8660`
to 4 decimal places, and at `r = 3` the sphere volume is `≈ 73.4589`, not
`73.4594` to 4 decimal places. -/
theorem claim_C2_cex :
    ¬ |sin_pi_3 2 - 0.8660| < 1 / 20000 ∧
    ¬ |sphere_volume 3 - 73.4594| < 1 / 20000 := by
  constructor
  · rw [sin_pi_3_eq (by norm_num : (0:ℝ) < 2)]
    intro h
    have h2 := (abs_lt.mp h).2
    norm_num at h2
  · rw [sphere_volume_three]
    intro h
    have h1 := (abs_lt.mp h).1
    have := pi_sqrt3_lt
    nlinarith

/-- C2, amended: the concrete scenarios for `r = 1, 2, 3` hold with
`diagonalLength ≈ 1.7321 / 3.4641 / 5.1962`, `sphereRadius ≈ 0.8660 / 1.7321 /
2.5981`, `sphereVolume ≈ 2.7207 / 21.7656 / 73.4589` and `identityValue ≈
1.3333` in every scenario (each to 4 decimal places); the claimed
`identityValue ≈ 0.8660` and `sphereVolume(3) ≈ 73.4594` are what the code
does not satisfy. -/
theorem claim_C2 :
    (|diag_length 1 - 1.7321| < 1 / 20000 ∧
     |sphere_radius 1 - 0.8660| < 1 / 20000 ∧
     |sphere_volume 1 - 2.7207| < 1 / 20000 ∧
     |sin_pi_3 1 - 1.3333| < 1 / 20000) ∧
    (|diag_length 2 - 3.4641| < 1 / 20000 ∧
     |sphere_radius 2 - 1.7321| < 1 / 20000 ∧
     |sphere_volume 2 - 21.7656| < 1 / 20000 ∧
     |sin_pi_3 2 - 1.3333| < 1 / 20000) ∧
    (|diag_length 3 - 5.1962| < 1 / 20000 ∧
     |sphere_radius 3 - 2.5981| < 1 / 20000 ∧
     |sphere_volume 3 - 73.4589| < 1 / 20000 ∧
     |sin_pi_3 3 - 1.3333| < 1 / 20000) := by
  have hs3g := sqrt3_gt
  have hs3l := sqrt3_lt
  have hpg := pi_sqrt3_gt
  have hpl := pi_sqrt3_lt
  have hd1 : diag_length 1 = Real.sqrt 3 := by
    rw [diag_length_eq (by norm_num : (0:ℝ) ≤ 1)]; ring
  have hd2 : diag_length 2 = 2 * Real.sqrt 3 := by
    rw [diag_length_eq (by norm_num : (0:ℝ) ≤ 2)]
  have hd3 : diag_length 3 = 3 * Real.sqrt 3 := by
    rw [diag_length_eq (by norm_num : (0:ℝ) ≤ 3)]
  have hr1 : sphere_radius 1 = Real.sqrt 3 / 2 := by
    rw [sphere_radius_eq (by norm_num : (0:ℝ) ≤ 1)]; ring
  have hr2 : sphere_radius 2 = Real.sqrt 3 := by
    rw [sphere_radius_eq (by norm_num : (0:ℝ) ≤ 2)]; ring
  have hr3 : sphere_radius 3 = 3 * Real.sqrt 3 / 2 := by
    rw [sphere_radius_eq (by norm_num : (0:ℝ) ≤ 3)]
  have hi1 := sin_pi_3_eq (by norm_num : (0:ℝ) < 1)
  have hi2 := sin_pi_3_eq (by norm_num : (0:ℝ) < 2)
  have hi3 := sin_pi_3_eq (by norm_num : (0:ℝ) < 3)
  refine ⟨⟨?_, ?_, ?_, ?_⟩, ⟨?_, ?_, ?_, ?_⟩, ⟨?_, ?_, ?_, ?_⟩⟩
  · rw [hd1, abs_lt]; constructor <;> linarith
  · rw [hr1, abs_lt]; constructor <;> linarith
  · rw [sphere_volume_one, abs_lt]; constructor <;> linarith
  · rw [hi1, abs_lt]; constructor <;> norm_num
  · rw [hd2, abs_lt]; constructor <;> linarith
  · rw [hr2, abs_lt]; constructor <;> linarith
  · rw [sphere_volume_two, abs_lt]; constructor <;> linarith
  · rw [hi2, abs_lt]; constructor <;> norm_num
  · rw [hd3, abs_lt]; constructor <;> linarith
  · rw [hr3, abs_lt]; constructor <;> linarith
  · rw [sphere_volume_three, abs_lt]; constructor <;> linarith
  · rw [hi3, abs_lt]; constructor <;> norm_num

/-- C3, counterexample: at the negative input `r = -1` the evaluator succeeds
(the final division's denominator is nonzero), so it does not fail for every
`r ≤ 0`; the code contains no `InvalidInputError` guard at all. -/
theorem claim_C3_cex : (evaluate (-1)).isSome = true := by
  rw [evaluate, if_neg (denom_ne_zero (by norm_num : (-1:ℝ) ≠ 0))]
  rfl

/-- C3, amended: the evaluator has no `InvalidInputError` guard; it fails
exactly at `r = 0` (an uncaught division by zero in the identity step) and
succeeds at every other input, negative inputs included. -/
theorem claim_C3 (r : ℝ) : evaluate r = none ↔ r = 0 :=
  evaluate_eq_none_iff r

/-- C3, witness: the amended claim evaluated at `r = 0`. -/
theorem claim_C3_witness : evaluate 0 = none :=
  (claim_C3 0).mpr rfl

/-- C4: for every `r > 0`, `diag_length r` is literally
`sqrt(r^2 + (sqrt(2)*r)^2)` and equals `r * sqrt 3` exactly in real
arithmetic, hence in particular within relative tolerance `1e-9`. -/
theorem claim_C4 (r : ℝ) (hr : 0 < r) :
    diag_length r = Real.sqrt (r ^ 2 + (Real.sqrt 2 * r) ^ 2) ∧
    diag_length r = r * Real.sqrt 3 ∧
    |diag_length r - r * Real.sqrt 3| ≤ 1e-9 * |r * Real.sqrt 3| := by
  refine ⟨rfl, diag_length_eq hr.le, ?_⟩
  rw [diag_length_eq hr.le, sub_self, abs_zero]
  positivity

/-- C4, witness: the claim evaluated at `r = 1`. -/
theorem claim_C4_witness :
    (0:ℝ) < 1 ∧ diag_length 1 = 1 * Real.sqrt 3 :=
  ⟨by norm_num, (claim_C4 1 (by norm_num)).2.1⟩

/-- C5: for every `r > 0`, `sphere_radius r` is exactly `diag_length r / 2`
(a single division; there is no further rounding in the real-arithmetic
embedding). -/
theorem claim_C5 (r : ℝ) (_hr : 0 < r) : sphere_radius r = diag_length r / 2 :=
  rfl

/-- C5, witness: the claim evaluated at `r = 1`. -/
theorem claim_C5_witness :
    (0:ℝ) < 1 ∧ sphere_radius 1 = diag_length 1 / 2 :=
  ⟨by norm_num, claim_C5 1 (by norm_num)⟩

/-- C6: for every `r > 0`, `sphere_volume r` equals
`(4/3) * π * (sphere_radius r)^3` exactly, hence in particular within
relative tolerance `1e-9`. -/
theorem claim_C6 (r : ℝ) (_hr : 0 < r) :
    sphere_volume r = 4 / 3 * Real.pi * sphere_radius r ^ 3 ∧
    |sphere_volume r - 4 / 3 * Real.pi * sphere_radius r ^ 3| ≤
      1e-9 * |4 / 3 * Real.pi * sphere_radius r ^ 3| := by
  refine ⟨rfl, ?_⟩
  unfold sphere_volume
  rw [sub_self, abs_zero]
  positivity

/-- C6, witness: the claim evaluated at `r = 1`. -/
theorem claim_C6_witness :
    (0:ℝ) < 1 ∧ sphere_volume 1 = 4 / 3 * Real.pi * sphere_radius 1 ^ 3 :=
  ⟨by norm_num, (claim_C6 1 (by norm_num)).1⟩

/-- C7: for every `r > 0`, the intermediate `x = r * sin(π/3)` coincides with
`sphere_radius r`, the identity value is exactly `4/3` in real arithmetic,
and it is independent of the input: any two positive inputs give the same
identity value. -/
theorem claim_C7 :
    (∀ r : ℝ, 0 < r → xval r = sphere_radius r ∧ sin_pi_3 r = 4 / 3) ∧
    (∀ r₁ r₂ : ℝ, 0 < r₁ → 0 < r₂ → sin_pi_3 r₁ = sin_pi_3 r₂) := by
  constructor
  · intro r hr
    refine ⟨?_, sin_pi_3_eq hr⟩
    rw [xval_eq, sphere_radius_eq hr.le]
  · intro r₁ r₂ h₁ h₂
    rw [sin_pi_3_eq h₁, sin_pi_3_eq h₂]

/-- C7, witness: the claim evaluated at `r = 1` and at the pair `(1, 2)`. -/
theorem claim_C7_witness :
    (xval 1 = sphere_radius 1 ∧ sin_pi_3 1 = 4 / 3) ∧
    sin_pi_3 1 = sin_pi_3 2 :=
  ⟨claim_C7.1 1 (by norm_num), claim_C7.2 1 2 (by norm_num) (by norm_num)⟩

/-- C8: at `r = 0` the diagonal, radius and volume steps all succeed with
value `0`, and the identity step's denominator `π * (0 * sin(π/3))^3` is
zero, so the evaluator fails there (the `none` models Python's uncaught
`ZeroDivisionError`, which terminates the script with a non-zero exit). -/
theorem claim_C8 :
    diag_length 0 = 0 ∧ sphere_radius 0 = 0 ∧ sphere_volume 0 = 0 ∧
    evaluate 0 = none := by
  have h0 : diag_length 0 = 0 := by
    rw [diag_length_eq le_rfl]; ring
  refine ⟨h0, ?_, ?_, evaluate_eq_none_iff 0 |>.mpr rfl⟩
  · rw [sphere_radius, h0]; norm_num
  · rw [sphere_volume, sphere_radius, h0]; norm_num

/-- C9: the computation lines 27-40 are textually identical in
`special_angles.py` and `special_angles_numpy.py` (NumPy is used only for
plotting), so every stage of the two pipelines agrees at every input,
failure behaviour included. -/
theorem claim_C9 (r : ℝ) :
    diag_length r = SpecialAnglesNumpy.diag_length r ∧
    sphere_radius r = SpecialAnglesNumpy.sphere_radius r ∧
    sphere_volume r = SpecialAnglesNumpy.sphere_volume r ∧
    sin_pi_3 r = SpecialAnglesNumpy.sin_pi_3 r ∧
    evaluate r = SpecialAnglesNumpy.evaluate r :=
  ⟨rfl, rfl, rfl, rfl, rfl⟩

/-- C10: the evaluator is deterministic and stateless. Running the script's
assignment block from any two starting variable environments gives the same
final environment (no hidden state influences the result), and running it a
second time with the same `r` reproduces the first run's values exactly. -/
theorem claim_C10 :
    (∀ s₁ s₂ : ScriptState, ∀ rv : ℝ, runPipeline s₁ rv = runPipeline s₂ rv) ∧
    (∀ s : ScriptState, ∀ rv : ℝ,
      runPipeline (runPipeline s rv) rv = runPipeline s rv) :=
  ⟨fun _ _ _ => rfl, fun _ _ => rfl⟩

end SpecialAngles
